import Mathlib

/-!
Verification development for the `beye` static-analysis orchestrator
(`analyzer/beye.py` and `libscanbuild/__init__.py`).

The Python code is shallowly embedded: dictionaries of parsed command-line
options become association lists over a small dynamic value type `PyVal`,
the flag translator `parameters_from_command_line` is transcribed clause by
clause, the report-directory lifecycle and the orchestration of `main` are
modelled as explicit state/trace functions, and the path helpers
(`os.path.commonprefix`, `os.path.dirname`, `str.rstrip`) are implemented
on `List Char` exactly as the CPython library defines them for POSIX paths.
-/

/-- Dynamic values stored in the parsed-arguments dictionary, mirroring the
Python values produced by `argparse` in `parse_command_line`. -/
inductive PyVal where
  | vNone
  | vBool (b : Bool)
  | vInt (n : Int)
  | vStr (s : String)
  | vList (l : List String)
  deriving DecidableEq

/-- Dictionary lookup, `d[k]` / `k in d` combined: first binding wins. -/
def pyGet {α : Type} (d : List (String × α)) (k : String) : Option α :=
  (d.find? (fun p => p.1 == k)).map (fun p => p.2)

/-- Lookup through the comprehension
`opts = \x7bk: v for k, v in args.items() if v is not None\x7d`:
a key bound to `None` is treated as absent. -/
def optGet (args : List (String × PyVal)) (k : String) : Option PyVal :=
  match pyGet args k with
  | Option.some PyVal.vNone => Option.none
  | Option.some v => Option.some v
  | Option.none => Option.none

/-- Python `str(v)` / `"\x7b0\x7d".format(v)` on the values we model. -/
def valueStr : PyVal → String
  | PyVal.vNone => "None"
  | PyVal.vBool b => if b then "True" else "False"
  | PyVal.vInt n => toString n
  | PyVal.vStr s => s
  | PyVal.vList l =>
      "[" ++ String.intercalate ", " (l.map (fun s => "\x27" ++ s ++ "\x27")) ++ "]"

/-- One `if key in opts: result.append(...)` clause of
`parameters_from_command_line`. -/
def emitOpt (r : List String) (o : Option PyVal) (g : PyVal → List String) : List String :=
  match o with
  | Option.some v => r ++ g v
  | Option.none => r

/-- The `if "verbose" in opts and 2 <= opts["verbose"]` clause. -/
def emitVerbose (r : List String) (o : Option PyVal) : List String :=
  match o with
  | Option.some (PyVal.vInt n) => if 2 ≤ n then r ++ ["-analyzer-display-progress"] else r
  | _ => r

/-- One `functools.reduce(lambda acc, x: acc + [flag, x], opts[key], result)`
clause (plugins / enabled checkers / disabled checkers). -/
def emitList (r : List String) (o : Option PyVal) (flag : String) : List String :=
  match o with
  | Option.some (PyVal.vList l) => l.foldl (fun acc x => acc ++ [flag, x]) r
  | _ => r

/-- `parameters_from_command_line` from `analyzer/beye.py`, clause by clause:
the filtered option dictionary is consulted by key presence and the matching
analyzer flags are appended; at the end every accumulated token is prefixed
with `-Xclang` by the final `functools.reduce`. -/
def parameters_from_command_line (args : List (String × PyVal)) : List String :=
  let result : List String := []
  let result := emitOpt result (optGet args "store_model")
    (fun v => ["-analyzer-store=" ++ valueStr v])
  let result := emitOpt result (optGet args "constraints_model")
    (fun v => ["-analyzer-constraints=" ++ valueStr v])
  let result := emitOpt result (optGet args "internal_stats") (fun _ => ["-analyzer-stats"])
  let result := emitOpt result (optGet args "analyze_headers")
    (fun _ => ["-analyzer-opt-analyze-headers"])
  let result := emitOpt result (optGet args "stats") (fun _ => ["-analyzer-checker=debug.Stats"])
  let result := emitOpt result (optGet args "maxloop")
    (fun v => ["-analyzer-max-loop", valueStr v])
  let result := emitOpt result (optGet args "output_format")
    (fun v => ["-analyzer-output=" ++ valueStr v])
  let result := emitOpt result (optGet args "analyzer_config") (fun v => [valueStr v])
  let result := emitVerbose result (optGet args "verbose")
  let result := emitList result (optGet args "plugins") "-load"
  let result := emitList result (optGet args "enable_checker") "-analyzer-checker"
  let result := emitList result (optGet args "disable_checker") "-analyzer-disable-checker"
  let result := emitOpt result (optGet args "ubiviz")
    (fun _ => ["-analyzer-viz-egraph-ubigraph"])
  result.foldl (fun acc x => acc ++ ["-Xclang", x]) []

/-- Interleave a marker flag before every element (`[f, x1, f, x2, ...]`). -/
def pairAll (flag : String) (l : List String) : List String :=
  l.foldr (fun x acc => flag :: x :: acc) []

/-- Flags contributed by a single presence-tested option. -/
def optFlags (o : Option PyVal) (g : PyVal → List String) : List String :=
  match o with
  | Option.some v => g v
  | Option.none => []

/-- Flags contributed by the verbosity option. -/
def verboseFlags (o : Option PyVal) : List String :=
  match o with
  | Option.some (PyVal.vInt n) => if 2 ≤ n then ["-analyzer-display-progress"] else []
  | _ => []

/-- Flags contributed by a list-valued option. -/
def listFlags (o : Option PyVal) (flag : String) : List String :=
  match o with
  | Option.some (PyVal.vList l) => pairAll flag l
  | _ => []

/-- Segment 1: store model flag. -/
def storeFlags (args : List (String × PyVal)) : List String :=
  optFlags (optGet args "store_model") (fun v => ["-analyzer-store=" ++ valueStr v])

/-- Segment 2: constraint model flag. -/
def constraintsFlags (args : List (String × PyVal)) : List String :=
  optFlags (optGet args "constraints_model") (fun v => ["-analyzer-constraints=" ++ valueStr v])

/-- Segment 3: internal statistics flag. -/
def internalStatsFlags (args : List (String × PyVal)) : List String :=
  optFlags (optGet args "internal_stats") (fun _ => ["-analyzer-stats"])

/-- Segment 4: header-analysis flag. -/
def analyzeHeadersFlags (args : List (String × PyVal)) : List String :=
  optFlags (optGet args "analyze_headers") (fun _ => ["-analyzer-opt-analyze-headers"])

/-- Segment 5: debug statistics checker flag. -/
def statsFlags (args : List (String × PyVal)) : List String :=
  optFlags (optGet args "stats") (fun _ => ["-analyzer-checker=debug.Stats"])

/-- Segment 6: max-loop flag/value pair. -/
def maxloopFlags (args : List (String × PyVal)) : List String :=
  optFlags (optGet args "maxloop") (fun v => ["-analyzer-max-loop", valueStr v])

/-- Segment 7: output format flag. -/
def outputFormatFlags (args : List (String × PyVal)) : List String :=
  optFlags (optGet args "output_format") (fun v => ["-analyzer-output=" ++ valueStr v])

/-- Segment 8: free-form analyzer-config string. -/
def analyzerConfigFlags (args : List (String × PyVal)) : List String :=
  optFlags (optGet args "analyzer_config") (fun v => [valueStr v])

/-- Segment 9: progress flag for verbosity at least 2. -/
def progressFlags (args : List (String × PyVal)) : List String :=
  verboseFlags (optGet args "verbose")

/-- Segment 10: plugin load pairs. -/
def pluginFlags (args : List (String × PyVal)) : List String :=
  listFlags (optGet args "plugins") "-load"

/-- Segment 11: enabled-checker pairs. -/
def enableCheckerFlags (args : List (String × PyVal)) : List String :=
  listFlags (optGet args "enable_checker") "-analyzer-checker"

/-- Segment 12: disabled-checker pairs. -/
def disableCheckerFlags (args : List (String × PyVal)) : List String :=
  listFlags (optGet args "disable_checker") "-analyzer-disable-checker"

/-- The final pass-through wrapping: each flag prefixed by `-Xclang`. -/
def xclangWrap (l : List String) : List String :=
  pairAll "-Xclang" l

/-- The dictionary produced by `parse_command_line` when no command-line
option is given: every `argparse` default, in declaration order.  Note that
`store_true` options default to `False` (not `None`), `--verbose` counts
from 0, and only options without an explicit default are `None`. -/
def defaultArgs : List (String × PyVal) :=
  [("input", PyVal.vStr "compile_commands.json"),
   ("output", PyVal.vStr "/tmp"),
   ("sequential", PyVal.vBool false),
   ("status_bugs", PyVal.vBool false),
   ("html_title", PyVal.vNone),
   ("analyze_headers", PyVal.vBool false),
   ("output_format", PyVal.vStr "html"),
   ("verbose", PyVal.vInt 0),
   ("keep_empty", PyVal.vBool false),
   ("report_failures", PyVal.vBool true),
   ("stats", PyVal.vBool false),
   ("internal_stats", PyVal.vBool false),
   ("maxloop", PyVal.vInt 4),
   ("store_model", PyVal.vStr "region"),
   ("constraints_model", PyVal.vStr "range"),
   ("clang", PyVal.vStr "clang"),
   ("analyzer_config", PyVal.vNone),
   ("plugins", PyVal.vNone),
   ("enable_checker", PyVal.vNone),
   ("disable_checker", PyVal.vNone)]

/-- `parse_command_line` output for `beye --status-bugs`: same as the
defaults but with `status_bugs` set to `True`. -/
def argsStatusBugs : List (String × PyVal) :=
  [("input", PyVal.vStr "compile_commands.json"),
   ("output", PyVal.vStr "/tmp"),
   ("sequential", PyVal.vBool false),
   ("status_bugs", PyVal.vBool true),
   ("html_title", PyVal.vNone),
   ("analyze_headers", PyVal.vBool false),
   ("output_format", PyVal.vStr "html"),
   ("verbose", PyVal.vInt 0),
   ("keep_empty", PyVal.vBool false),
   ("report_failures", PyVal.vBool true),
   ("stats", PyVal.vBool false),
   ("internal_stats", PyVal.vBool false),
   ("maxloop", PyVal.vInt 4),
   ("store_model", PyVal.vStr "region"),
   ("constraints_model", PyVal.vStr "range"),
   ("clang", PyVal.vStr "clang"),
   ("analyzer_config", PyVal.vNone),
   ("plugins", PyVal.vNone),
   ("enable_checker", PyVal.vNone),
   ("disable_checker", PyVal.vNone)]

/-- `parse_command_line` output for `beye --plist`: same as the defaults but
with `output_format` set to `"plist"`. -/
def plistArgs : List (String × PyVal) :=
  [("input", PyVal.vStr "compile_commands.json"),
   ("output", PyVal.vStr "/tmp"),
   ("sequential", PyVal.vBool false),
   ("status_bugs", PyVal.vBool false),
   ("html_title", PyVal.vNone),
   ("analyze_headers", PyVal.vBool false),
   ("output_format", PyVal.vStr "plist"),
   ("verbose", PyVal.vInt 0),
   ("keep_empty", PyVal.vBool false),
   ("report_failures", PyVal.vBool true),
   ("stats", PyVal.vBool false),
   ("internal_stats", PyVal.vBool false),
   ("maxloop", PyVal.vInt 4),
   ("store_model", PyVal.vStr "region"),
   ("constraints_model", PyVal.vStr "range"),
   ("clang", PyVal.vStr "clang"),
   ("analyzer_config", PyVal.vNone),
   ("plugins", PyVal.vNone),
   ("enable_checker", PyVal.vNone),
   ("disable_checker", PyVal.vNone)]

/-- `needs_report_file` from `main`: the output format requires a rendered
report exactly for `html` and `plist-html` (`opts.get` on the raw dict). -/
def needs_report_file (args : List (String × PyVal)) : Bool :=
  match pyGet args "output_format" with
  | Option.some (PyVal.vStr s) => s == "html" || s == "plist-html"
  | _ => false

/-- The `number_of_bugs` binding in `main`: the defect count returned by
`generate_report` when a report is rendered, and the constant `0` otherwise. -/
def number_of_bugs (args : List (String × PyVal)) (reportCount : Nat) : Nat :=
  if needs_report_file args then reportCount else 0

/-- The value returned by `main`:
`number_of_bugs if "status_bugs" in args else 0`, where the membership test
is on the raw parsed dictionary. -/
def main_return (args : List (String × PyVal)) (reportCount : Nat) : Nat :=
  if (pyGet args "status_bugs").isSome then number_of_bugs args reportCount else 0

/-- Outcome of `ReportDirectory.__exit__`. -/
structure ReleaseOutcome where
  existsAfter : Bool
  removed : Bool
  message : String
  deriving DecidableEq

/-- `ReportDirectory.__exit__`: keep a non-empty directory, keep an empty one
when `keep` is set, remove an empty one otherwise, always logging a message. -/
def reportDirectoryExit (name : String) (contents : List String) (keep : Bool) :
    ReleaseOutcome :=
  if !contents.isEmpty then
    ⟨true, false, "Run \x27scan-view " ++ name ++ "\x27 to examine bug reports."⟩
  else if keep then
    ⟨true, false, "Report directory \x27" ++ name ++ "\x27 contans no report, but kept."⟩
  else
    ⟨false, true, "Removing directory \x27" ++ name ++ "\x27 because it contains no report."⟩

/-- Outcome of `ReportDirectory._create`. -/
inductive CreateOutcome where
  | created (path : String)
  | osError
  deriving DecidableEq

/-- `ReportDirectory._create`: for any hint other than the temporary
directory `/tmp`, `os.mkdir(hint)` is attempted, raising `OSError` when the
path already exists; for the hint `/tmp`, `tempfile.mkdtemp` supplies a fresh
uniquely named directory. The filesystem is abstracted by the `dirExists`
oracle and the fresh name chosen by `mkdtemp` by `mkdtempName`. -/
def reportDirectory_create (hint : String) (dirExists : String → Bool)
    (mkdtempName : String) : CreateOutcome :=
  if hint != "/tmp" then
    if dirExists hint then CreateOutcome.osError else CreateOutcome.created hint
  else
    CreateOutcome.created mkdtempName

/-- Observable events of one `main` run, in program order. -/
inductive Event where
  | createOutDir (path : String)
  | loadError
  | dispatch (idx : Nat)
  | reportTrigger
  | keepEmptyMsg (path : String)
  | removeOutDir (path : String)
  deriving DecidableEq

/-- Events emitted by the `ReportDirectory.__exit__` release step. -/
def releaseEvents (outName : String) (contents : List String) (keep : Bool) : List Event :=
  if !contents.isEmpty then []
  else if keep then [Event.keepEmptyMsg outName]
  else [Event.removeOutDir outName]

/-- Trace of `main`: the report directory is created on entering the `with`
block, then `run_analyzer` opens and loads the compilation database
(`load = none` models a missing or unparseable file, which raises before any
entry is dispatched), then each of the `n` entries is dispatched to the pool,
then `generate_report` runs when the output format requires it, and the
release step of the `with` block runs on every exit path. -/
def mainTrace (outName : String) (keep : Bool) (fmt : String)
    (load : Option Nat) (contents : List String) : List Event :=
  Event.createOutDir outName ::
    match load with
    | Option.none => Event.loadError :: releaseEvents outName [] keep
    | Option.some n =>
        (List.range n).map Event.dispatch ++
          (if fmt == "html" || fmt == "plist-html" then [Event.reportTrigger] else []) ++
          releaseEvents outName contents keep

/-- Result consumption in `run_analyzer`: a worker result is a Python
dictionary, its `analyzer` entry another dictionary whose `error_output`
entry is the list of diagnostic lines.  The loop body
`for line in current["analyzer"]["error_output"]` indexes without a guard,
so a missing `error_output` key raises `KeyError`. -/
def consume_result
    (current : Option (List (String × List (String × List String)))) :
    Except String (List String) :=
  match current with
  | Option.none => Except.ok []
  | Option.some d =>
    match pyGet d "analyzer" with
    | Option.none => Except.ok []
    | Option.some inner =>
      match pyGet inner "error_output" with
      | Option.none => Except.error "KeyError: error_output"
      | Option.some lines => Except.ok (lines.map (fun line =>
          String.mk (List.rdropWhile (fun c =>
            c == ' ' || c == '\t' || c == '\n' || c == '\r' || c == '\x0b' || c == '\x0c')
            line.data)))

/-- Python `line.rstrip()`: drop trailing whitespace. -/
def pyRstrip (line : String) : String :=
  String.mk (List.rdropWhile (fun c =>
    c == ' ' || c == '\t' || c == '\n' || c == '\r' || c == '\x0b' || c == '\x0c')
    line.data)

/-- `os.path.commonprefix` on a pair: character-wise longest common prefix. -/
def lcpL : List Char → List Char → List Char
  | a :: as, b :: bs => if a = b then a :: lcpL as bs else []
  | _, _ => []

/-- `posixpath.dirname` on character lists: keep everything up to and
including the last slash, then strip trailing slashes unless the head is
empty or consists only of slashes. -/
def pyDirnameL (p : List Char) : List Char :=
  let head := List.rdropWhile (fun c => c != '/') p
  if head.isEmpty then head
  else if head.all (fun c => c == '/') then head
  else List.rdropWhile (fun c => c == '/') head

/-- `os.path.dirname` on strings. -/
def pyDirname (s : String) : String :=
  String.mk (pyDirnameL s.data)

/-- The accumulator loop of `common` in `get_prefix_from`: `None` until the
first directory is seen, then pairwise `os.path.commonprefix`. -/
def common_reduce : Option (List Char) → List (List Char) → Option (List Char)
  | acc, [] => acc
  | Option.none, c :: rest => common_reduce (Option.some c) rest
  | Option.some r, c :: rest => common_reduce (Option.some (lcpL r c)) rest

/-- `get_prefix_from` from `analyzer/beye.py`: fold the directories of the
entries' source files with `os.path.commonprefix`; an empty database gives
the empty string; when the accumulated string is not an existing directory
on the live filesystem (oracle `isdir`), its `dirname` is returned instead. -/
def get_prefix_from (entries : List String) (isdir : String → Bool) : String :=
  match common_reduce Option.none (entries.map (fun e => pyDirnameL e.data)) with
  | Option.none => ""
  | Option.some r => if isdir (String.mk r) then String.mk r else String.mk (pyDirnameL r)

/-- Formalisation of the claim wording `directory prefix`: the candidate is
the directory itself or a proper ancestor ending at a component boundary. -/
def isDirectoryPrefOf (p d : String) : Bool :=
  p == d || List.isPrefixOf (p.data ++ ['/']) d.data

/-- One call of the predicate built by `duplicate_check`
(`libscanbuild/__init__.py`): look the identity up in the `seen` set, add it
and answer `False` on first occurrence, answer `True` on a repeat. -/
def duplicate_check_step {α β : Type} [DecidableEq β] (u : α → β) (state : List β)
    (entry : α) : Bool × List β :=
  if u entry ∈ state then (true, state) else (false, u entry :: state)

/-- Run the predicate of `duplicate_check` over a whole sequence in a single
pass, threading the `seen` set, and record each answer next to its record. -/
def duplicate_scan {α β : Type} [DecidableEq β] (u : α → β) (state : List β) :
    List α → List (α × Bool)
  | [] => []
  | x :: xs =>
    let r := duplicate_check_step u state x
    (x, r.1) :: duplicate_scan u r.2 xs

/-- The records on which the predicate answered `False`, starting from the
given `seen` set. -/
def kept_from {α β : Type} [DecidableEq β] (u : α → β) (state : List β)
    (xs : List α) : List α :=
  ((duplicate_scan u state xs).filter (fun p => !p.2)).map Prod.fst

/-- The first-occurrence subsequence: records on which a freshly constructed
`duplicate_check` predicate answers `False`. -/
def kept_records {α β : Type} [DecidableEq β] (u : α → β) (xs : List α) : List α :=
  kept_from u [] xs

/-! ### Helper lemmas -/

theorem emitOpt_eq (r : List String) (o : Option PyVal) (g : PyVal → List String) :
    emitOpt r o g = r ++ optFlags o g := by
  cases o <;> simp [emitOpt, optFlags]

theorem emitVerbose_eq (r : List String) (o : Option PyVal) :
    emitVerbose r o = r ++ verboseFlags o := by
  cases o with
  | none => simp [emitVerbose, verboseFlags]
  | some v =>
    cases v <;> simp [emitVerbose, verboseFlags]
    split <;> simp

theorem foldl_pair_eq (flag : String) (l : List String) :
    ∀ r : List String, l.foldl (fun acc x => acc ++ [flag, x]) r = r ++ pairAll flag l := by
  induction l with
  | nil => intro r; simp [pairAll]
  | cons x t ih =>
    intro r
    simp only [List.foldl_cons, ih, pairAll, List.foldr_cons]
    simp [pairAll, List.append_assoc]

theorem emitList_eq (r : List String) (o : Option PyVal) (flag : String) :
    emitList r o flag = r ++ listFlags o flag := by
  cases o with
  | none => simp [emitList, listFlags]
  | some v =>
    cases v <;> simp [emitList, listFlags]
    exact foldl_pair_eq _ _ _

/-! ### Claims about the Argument Translator -/

/-- Claim C1: the code does not implement the documented exit-status policy.
With `--status-bugs` and the report-rendering default format, a defect count
of 2 makes `main` return 2 (the claim requires exit status 1); and since the
`status_bugs` key is always present in the parsed dictionary (with value
`False` when the option is not given), `main` returns the defect count even
without `--status-bugs` (the claim requires 0). -/
theorem C1_exit_status_code_bug :
    main_return argsStatusBugs 2 = 2 ∧
    main_return defaultArgs 2 = 2 ∧
    (pyGet defaultArgs "status_bugs").isSome = true ∧
    pyGet defaultArgs "status_bugs" = Option.some (PyVal.vBool false) := by
  decide

/-- Claim C2: the code emits flags for absent options.  On the default parsed
configuration, in which internal-stats, analyze-headers and stats were not
requested (all three keys hold `False`), the translator still emits
`-analyzer-stats`, `-analyzer-opt-analyze-headers` and
`-analyzer-checker=debug.Stats`, because it tests key presence in a
dictionary from which only `None` values were filtered. -/
theorem C2_absent_options_code_bug :
    parameters_from_command_line defaultArgs =
      ["-Xclang", "-analyzer-store=region",
       "-Xclang", "-analyzer-constraints=range",
       "-Xclang", "-analyzer-stats",
       "-Xclang", "-analyzer-opt-analyze-headers",
       "-Xclang", "-analyzer-checker=debug.Stats",
       "-Xclang", "-analyzer-max-loop", "-Xclang", "4",
       "-Xclang", "-analyzer-output=html"] ∧
    pyGet defaultArgs "internal_stats" = Option.some (PyVal.vBool false) ∧
    pyGet defaultArgs "analyze_headers" = Option.some (PyVal.vBool false) ∧
    pyGet defaultArgs "stats" = Option.some (PyVal.vBool false) := by
  decide

/-- Claim C3: for every configuration (with the never-supplied `ubiviz` key
absent, as `parse_command_line` guarantees), the translator's output is the
`-Xclang`-wrapped concatenation of the twelve per-option segments in the
fixed order store model, constraint model, internal-stats, analyze-headers,
stats, max-loop pair, output format, analyzer-config, progress flag,
plugins, enabled checkers, disabled checkers; and the output depends only on
the key-to-value mapping, not on the order in which the bindings were
supplied. -/
theorem C3_fixed_order_and_wrap (args argsReordered : List (String × PyVal))
    (hub : optGet args "ubiviz" = Option.none) :
    parameters_from_command_line args =
      xclangWrap (storeFlags args ++ constraintsFlags args ++ internalStatsFlags args ++
        analyzeHeadersFlags args ++ statsFlags args ++ maxloopFlags args ++
        outputFormatFlags args ++ analyzerConfigFlags args ++ progressFlags args ++
        pluginFlags args ++ enableCheckerFlags args ++ disableCheckerFlags args) ∧
    ((∀ k, pyGet args k = pyGet argsReordered k) →
      parameters_from_command_line args = parameters_from_command_line argsReordered) := by
  constructor
  · simp only [parameters_from_command_line, emitOpt_eq, emitVerbose_eq, emitList_eq,
      foldl_pair_eq, hub]
    simp only [storeFlags, constraintsFlags, internalStatsFlags, analyzeHeadersFlags,
      statsFlags, maxloopFlags, outputFormatFlags, analyzerConfigFlags, progressFlags,
      pluginFlags, enableCheckerFlags, disableCheckerFlags, xclangWrap, optFlags]
    simp [List.append_assoc]
  · intro h
    have h2 : ∀ k, optGet args k = optGet argsReordered k := by
      intro k; simp only [optGet, h k]
    simp only [parameters_from_command_line, h2]

/-- Witness for C3 at the default configuration. -/
theorem C3_witness :
    parameters_from_command_line defaultArgs =
      xclangWrap (storeFlags defaultArgs ++ constraintsFlags defaultArgs ++
        internalStatsFlags defaultArgs ++ analyzeHeadersFlags defaultArgs ++
        statsFlags defaultArgs ++ maxloopFlags defaultArgs ++
        outputFormatFlags defaultArgs ++ analyzerConfigFlags defaultArgs ++
        progressFlags defaultArgs ++ pluginFlags defaultArgs ++
        enableCheckerFlags defaultArgs ++ disableCheckerFlags defaultArgs) ∧
    parameters_from_command_line defaultArgs = parameters_from_command_line defaultArgs :=
  ⟨(C3_fixed_order_and_wrap defaultArgs defaultArgs (by decide)).1,
   (C3_fixed_order_and_wrap defaultArgs defaultArgs (by decide)).2 (fun _ => rfl)⟩

/-! ### Claims about orchestration order, directory lifecycle and reporting -/

/-- Counterexample to claim C4: on a run whose compilation database fails to
load, the very first event of the trace is the creation of the output
directory; the load failure comes only after it (and the directory, still
empty, is then removed by the release step), so the run does not fail
before the output directory is created or touched. -/
theorem C4_counterexample :
    mainTrace "/out" false "html" Option.none [] =
      [Event.createOutDir "/out", Event.loadError, Event.removeOutDir "/out"] ∧
    (mainTrace "/out" false "html" Option.none []).head? =
      Option.some (Event.createOutDir "/out") ∧
    Event.loadError ∈ mainTrace "/out" false "html" Option.none [] := by
  decide

/-- Claim C4 as amended: a run whose compilation database is missing or not
parseable fails with the load error before any dispatch begins and before
the report trigger, but only after the output directory has been created;
the empty directory is then handled by the release step. -/
theorem C4_load_failure_amended (out : String) (keep : Bool) (fmt : String)
    (contents : List String) :
    Event.loadError ∈ mainTrace out keep fmt Option.none contents ∧
    (∀ i, Event.dispatch i ∉ mainTrace out keep fmt Option.none contents) ∧
    Event.reportTrigger ∉ mainTrace out keep fmt Option.none contents ∧
    (mainTrace out keep fmt Option.none contents).head? =
      Option.some (Event.createOutDir out) := by
  cases keep <;> simp [mainTrace, releaseEvents]

/-- Witness for C4's amended claim at a concrete run. -/
theorem C4_witness :
    Event.loadError ∈ mainTrace "/o" true "plist" Option.none ["x"] ∧
    Event.dispatch 0 ∉ mainTrace "/o" true "plist" Option.none ["x"] :=
  ⟨(C4_load_failure_amended "/o" true "plist" ["x"]).1,
   (C4_load_failure_amended "/o" true "plist" ["x"]).2.1 0⟩

/-- Claim C5: after the release step the output directory exists exactly when
it is non-empty or the keep-empty option is set, and it is removed exactly
when it is empty and keep-empty is not set — in particular it is never
removed while non-empty. -/
theorem C5_release_disposition (name : String) (contents : List String) (keep : Bool) :
    ((reportDirectoryExit name contents keep).existsAfter = true ↔
      contents ≠ [] ∨ keep = true) ∧
    ((reportDirectoryExit name contents keep).removed = true ↔
      contents = [] ∧ keep = false) := by
  cases contents <;> cases keep <;> simp [reportDirectoryExit]

/-- Claim C9: with the hint `/tmp` (the conventional temporary directory,
which is also the default), acquisition creates the fresh uniquely named
directory chosen by `mkdtemp` inside `/tmp` rather than the literal hint;
with any other hint, exactly the requested path is created, and acquisition
fails when that path already exists. -/
theorem C9_create_disposition (hint : String) (dirExists : String → Bool)
    (mkdtempName : String)
    (hfresh : dirExists mkdtempName = false)
    (hin : List.isPrefixOf ("/tmp/beye-").data mkdtempName.data = true)
    (hne : mkdtempName ≠ "/tmp") :
    (hint = "/tmp" →
      reportDirectory_create hint dirExists mkdtempName =
        CreateOutcome.created mkdtempName ∧
      mkdtempName ≠ hint ∧
      dirExists mkdtempName = false ∧
      List.isPrefixOf ("/tmp/").data mkdtempName.data = true) ∧
    (hint ≠ "/tmp" →
      (dirExists hint = true →
        reportDirectory_create hint dirExists mkdtempName = CreateOutcome.osError) ∧
      (dirExists hint = false →
        reportDirectory_create hint dirExists mkdtempName =
          CreateOutcome.created hint)) := by
  constructor
  · intro h
    subst h
    refine ⟨by simp [reportDirectory_create], hne, hfresh, ?_⟩
    have h1 : ("/tmp/").data <+: ("/tmp/beye-").data := ⟨("beye-").data, by decide⟩
    have h2 : ("/tmp/beye-").data <+: mkdtempName.data := List.isPrefixOf_iff_prefix.mp hin
    exact List.isPrefixOf_iff_prefix.mpr (h1.trans h2)
  · intro h
    have hbne : (hint != "/tmp") = true := by
      simp [bne_iff_ne, h]
    constructor
    · intro hex
      simp [reportDirectory_create, hbne, hex]
    · intro hex
      simp [reportDirectory_create, hbne, hex]

/-- Witness for C9 at a concrete temp hint and a concrete ordinary hint. -/
theorem C9_witness :
    reportDirectory_create "/tmp" (fun _ => false) "/tmp/beye-k1.out" =
      CreateOutcome.created "/tmp/beye-k1.out" ∧
    reportDirectory_create "/work/out" (fun s => s == "/work/out") "/tmp/beye-k1.out" =
      CreateOutcome.osError ∧
    reportDirectory_create "/work/out" (fun _ => false) "/tmp/beye-k1.out" =
      CreateOutcome.created "/work/out" :=
  ⟨((C9_create_disposition "/tmp" (fun _ => false) "/tmp/beye-k1.out"
      rfl (by decide) (by decide)).1 rfl).1,
   ((C9_create_disposition "/work/out" (fun s => s == "/work/out") "/tmp/beye-k1.out"
      (by decide) (by decide) (by decide)).2 (by decide)).1 (by decide),
   ((C9_create_disposition "/work/out" (fun _ => false) "/tmp/beye-k1.out"
      rfl (by decide) (by decide)).2 (by decide)).2 rfl⟩

/-- Claim C10: the report trigger runs exactly for the output formats `html`
and `plist-html`; for any other format no report is generated and the defect
count that feeds the exit value is the constant 0. -/
theorem C10_report_trigger_iff (out : String) (keep : Bool) (fmt : String) (n : Nat)
    (contents : List String) (args : List (String × PyVal)) (m : Nat) :
    (Event.reportTrigger ∈ mainTrace out keep fmt (Option.some n) contents ↔
      fmt = "html" ∨ fmt = "plist-html") ∧
    (needs_report_file args = false → number_of_bugs args m = 0) := by
  constructor
  · cases contents <;> cases keep <;> simp [mainTrace, releaseEvents]
  · intro h
    simp [number_of_bugs, h]

/-- Witness for C10 at the `--plist` configuration. -/
theorem C10_witness :
    (Event.reportTrigger ∈ mainTrace "/o" false "plist" (Option.some 1) [] ↔
      "plist" = "html" ∨ "plist" = "plist-html") ∧
    number_of_bugs plistArgs 7 = 0 :=
  ⟨(C10_report_trigger_iff "/o" false "plist" 1 [] plistArgs 7).1,
   (C10_report_trigger_iff "/o" false "plist" 1 [] plistArgs 7).2 (by decide)⟩

/-! ### Result consumption (claim C6) -/

/-- Counterexample to claim C6: a worker result that carries analyzer
metadata but no `error_output` field makes the consuming loop raise a
`KeyError`, so consuming such a result does abort the run. -/
theorem C6_counterexample :
    consume_result (Option.some [("analyzer", [])]) =
      Except.error "KeyError: error_output" := by
  rfl

/-- Claim C6 as amended: consumption never raises for a result that is
missing entirely or that lacks the analyzer metadata, and a present
`error_output` field has each of its lines stripped of trailing whitespace
and forwarded (an empty field forwards nothing); but a result carrying
analyzer metadata without the `error_output` field raises a `KeyError`. -/
theorem C6_consume_amended :
    consume_result Option.none = Except.ok [] ∧
    (∀ d, pyGet d "analyzer" = Option.none →
      consume_result (Option.some d) = Except.ok []) ∧
    (∀ d inner lines, pyGet d "analyzer" = Option.some inner →
      pyGet inner "error_output" = Option.some lines →
      consume_result (Option.some d) = Except.ok (lines.map pyRstrip)) ∧
    (∀ d inner, pyGet d "analyzer" = Option.some inner →
      pyGet inner "error_output" = Option.none →
      consume_result (Option.some d) = Except.error "KeyError: error_output") := by
  refine ⟨rfl, ?_, ?_, ?_⟩
  · intro d h1
    simp [consume_result, h1]
  · intro d inner lines h1 h2
    simp [consume_result, h1, h2, pyRstrip]
  · intro d inner h1 h2
    simp [consume_result, h1, h2]

/-- Witness for C6's amended claim at concrete results. -/
theorem C6_witness :
    consume_result Option.none = Except.ok [] ∧
    consume_result (Option.some [("exit_code", [])]) = Except.ok [] ∧
    consume_result (Option.some [("analyzer", [("error_output", ["warn: x  "])])]) =
      Except.ok (["warn: x  "].map pyRstrip) ∧
    ["warn: x  "].map pyRstrip = ["warn: x"] ∧
    consume_result (Option.some [("analyzer", [("cmd", [])])]) =
      Except.error "KeyError: error_output" :=
  ⟨C6_consume_amended.1,
   C6_consume_amended.2.1 [("exit_code", [])] (by decide),
   C6_consume_amended.2.2.1 [("analyzer", [("error_output", ["warn: x  "])])]
     [("error_output", ["warn: x  "])] ["warn: x  "] (by decide) (by decide),
   by decide,
   C6_consume_amended.2.2.2 [("analyzer", [("cmd", [])])] [("cmd", [])]
     (by decide) (by decide)⟩

/-! ### Common-prefix resolver (claim C7) -/

theorem lcpL_pref_left : ∀ (a b : List Char), lcpL a b <+: a
  | [], _ => by simp [lcpL]
  | _ :: _, [] => by simp [lcpL]
  | a :: as, b :: bs => by
    by_cases h : a = b
    · obtain ⟨t, ht⟩ := lcpL_pref_left as bs
      exact ⟨t, by simp [lcpL, h, ht]⟩
    · simp [lcpL, h]

theorem lcpL_pref_right : ∀ (a b : List Char), lcpL a b <+: b
  | [], _ => by simp [lcpL]
  | _ :: _, [] => by simp [lcpL]
  | a :: as, b :: bs => by
    by_cases h : a = b
    · obtain ⟨t, ht⟩ := lcpL_pref_right as bs
      subst h
      exact ⟨t, by simp [lcpL, ht]⟩
    · simp [lcpL, h]

theorem pyDirnameL_pref (p : List Char) : pyDirnameL p <+: p := by
  have h1 : List.rdropWhile (fun c => c != '/') p <+: p :=
    List.rdropWhile_prefix (fun c => c != '/') p
  simp only [pyDirnameL]
  split
  · exact h1
  · split
    · exact h1
    · exact (List.rdropWhile_prefix _ _).trans h1

theorem common_reduce_pref :
    ∀ (l : List (List Char)) (r : List Char),
      ∃ r2, common_reduce (Option.some r) l = Option.some r2 ∧ r2 <+: r ∧
        ∀ x ∈ l, r2 <+: x := by
  intro l
  induction l with
  | nil => intro r; exact ⟨r, rfl, List.prefix_rfl, by simp⟩
  | cons c rest ih =>
    intro r
    obtain ⟨r2, heq, hpre, hall⟩ := ih (lcpL r c)
    refine ⟨r2, by simpa [common_reduce] using heq,
      hpre.trans (lcpL_pref_left r c), ?_⟩
    intro x hx
    rcases List.mem_cons.mp hx with rfl | hx
    · exact hpre.trans (lcpL_pref_right r x)
    · exact hall x hx

/-- Counterexample to claim C7: first, with a single entry whose directory
`/a/b/c` does not exist on the analysing filesystem, the resolver returns
`/a/b` although the longer `/a/b/c` is a common directory prefix of every
entry directory, so the result is not maximal; second, when the filesystem
happens to contain a directory equal to the character-wise common prefix
`/a/b` of `/a/bc` and `/a/bd`, the resolver returns `/a/b`, which cuts
through a path component and is not a directory prefix of the entries'
directories. -/
theorem C7_counterexample :
    get_prefix_from ["/a/b/c/f.c"] (fun _ => false) = "/a/b" ∧
    isDirectoryPrefOf "/a/b/c" (pyDirname "/a/b/c/f.c") = true ∧
    ("/a/b" : String).length < ("/a/b/c" : String).length ∧
    get_prefix_from ["/a/bc/f.c", "/a/bd/g.c"] (fun s => s == "/a/b") = "/a/b" ∧
    isDirectoryPrefOf "/a/b" (pyDirname "/a/bc/f.c") = false := by
  decide

/-- Claim C7 as amended: for an empty compilation database the resolver
returns the empty string; for a non-empty database the result is a string
prefix of every entry's source-file directory (the character-wise common
prefix of those directories when the filesystem reports it as a directory,
and otherwise its parent), but it need not be the maximal common directory
prefix and may end inside a path component, depending on the filesystem. -/
theorem C7_resolver_amended (isdir : String → Bool) (entries : List String) :
    get_prefix_from [] isdir = "" ∧
    ∀ e ∈ entries, (get_prefix_from entries isdir).data <+: (pyDirname e).data := by
  refine ⟨rfl, ?_⟩
  intro e he
  cases entries with
  | nil => cases he
  | cons e0 rest =>
    obtain ⟨r2, heq, hpre, hall⟩ :=
      common_reduce_pref (rest.map (fun x => pyDirnameL x.data)) (pyDirnameL e0.data)
    have hgoal : r2 <+: pyDirnameL e.data := by
      rcases List.mem_cons.mp he with rfl | hmem
      · exact hpre
      · exact hall _ (List.mem_map_of_mem _ hmem)
    have hcr : common_reduce Option.none
        ((e0 :: rest).map (fun x => pyDirnameL x.data)) = Option.some r2 := by
      simpa [common_reduce] using heq
    simp only [get_prefix_from, hcr]
    split
    · simpa [pyDirname] using hgoal
    · simpa [pyDirname] using (pyDirnameL_pref r2).trans hgoal

/-- Witness for C7's amended claim at a concrete database. -/
theorem C7_witness :
    get_prefix_from [] (fun _ => true) = "" ∧
    (get_prefix_from ["/a/b/x.c", "/a/c/y.c"] (fun _ => true)).data <+:
      (pyDirname "/a/b/x.c").data :=
  ⟨(C7_resolver_amended (fun _ => true) []).1,
   (C7_resolver_amended (fun _ => true) ["/a/b/x.c", "/a/c/y.c"]).2 "/a/b/x.c"
     (List.mem_cons_self _ _)⟩

/-! ### Deduplicator (claim C8) -/

theorem duplicate_scan_flag {α β : Type} [DecidableEq β] (u : α → β) (d : α) :
    ∀ (xs : List α) (state : List β) (i : Nat), i < xs.length →
      ((duplicate_scan u state xs).map Prod.snd).getD i false =
        decide (u (xs.getD i d) ∈ state ∨ u (xs.getD i d) ∈ (xs.take i).map u) := by
  intro xs
  induction xs with
  | nil => intro state i h; simp at h
  | cons x t ih =>
    intro state i h
    cases i with
    | zero =>
      by_cases hx : u x ∈ state
      · simp [duplicate_scan, duplicate_check_step, hx]
      · simp [duplicate_scan, duplicate_check_step, hx]
    | succ j =>
      have hj : j < t.length := by simpa using h
      by_cases hx : u x ∈ state
      · have hL : ((duplicate_scan u state (x :: t)).map Prod.snd).getD (j + 1) false =
            ((duplicate_scan u state t).map Prod.snd).getD j false := by
          simp [duplicate_scan, duplicate_check_step, hx]
        rw [hL, ih state j hj, decide_eq_decide]
        simp only [List.getD_cons_succ, List.take_succ_cons, List.map_cons, List.mem_cons]
        constructor
        · rintro (h1 | h1)
          · exact Or.inl h1
          · exact Or.inr (Or.inr h1)
        · rintro (h1 | h1 | h1)
          · exact Or.inl h1
          · exact Or.inl (by rw [h1]; exact hx)
          · exact Or.inr h1
      · have hL : ((duplicate_scan u state (x :: t)).map Prod.snd).getD (j + 1) false =
            ((duplicate_scan u (u x :: state) t).map Prod.snd).getD j false := by
          simp [duplicate_scan, duplicate_check_step, hx]
        rw [hL, ih (u x :: state) j hj, decide_eq_decide]
        simp only [List.getD_cons_succ, List.take_succ_cons, List.map_cons, List.mem_cons]
        constructor
        · rintro (⟨h1 | h1⟩ | h1)
          · exact Or.inr (Or.inl h1)
          · exact Or.inl h1
          · exact Or.inr (Or.inr h1)
        · rintro (h1 | h1 | h1)
          · exact Or.inl (Or.inr h1)
          · exact Or.inl (Or.inl h1)
          · exact Or.inr h1

theorem kept_from_cons {α β : Type} [DecidableEq β] (u : α → β) (state : List β)
    (x : α) (t : List α) :
    kept_from u state (x :: t) =
      if u x ∈ state then kept_from u state t
      else x :: kept_from u (u x :: state) t := by
  by_cases hx : u x ∈ state <;>
    simp [kept_from, duplicate_scan, duplicate_check_step, hx]

theorem kept_from_spec {α β : Type} [DecidableEq β] (u : α → β) (xs : List α) :
    ∀ state : List β,
      ((kept_from u state xs).map u).Nodup ∧
      (∀ b ∈ (kept_from u state xs).map u, b ∉ state) ∧
      (kept_from u state xs).Sublist xs := by
  induction xs with
  | nil => intro state; simp [kept_from, duplicate_scan]
  | cons x t ih =>
    intro state
    by_cases hx : u x ∈ state
    · obtain ⟨h1, h2, h3⟩ := ih state
      rw [kept_from_cons, if_pos hx]
      exact ⟨h1, h2, h3.cons x⟩
    · obtain ⟨h1, h2, h3⟩ := ih (u x :: state)
      rw [kept_from_cons, if_neg hx]
      refine ⟨?_, ?_, h3.cons₂ x⟩
      · simp only [List.map_cons, List.nodup_cons]
        exact ⟨fun hmem => (h2 _ hmem) (List.mem_cons_self _ _), h1⟩
      · intro b hb
        rw [List.map_cons] at hb
        rcases List.mem_cons.mp hb with rfl | hbmem
        · exact hx
        · exact fun hbs => h2 b hbmem (List.mem_cons_of_mem _ hbs)

/-- Claim C8: the predicate built by `duplicate_check` answers `false` on
the first occurrence of each identity and `true` exactly on repeats (the
answer at position `i` is whether the identity already occurred among the
first `i` records), and the subsequence of records on which it answered
`false` has pairwise distinct identities and is a sublist of the input,
hence preserves the original relative order. -/
theorem C8_deduplicator {α β : Type} [DecidableEq β] (u : α → β) (xs : List α) (d : α) :
    (∀ i, i < xs.length →
      ((duplicate_scan u [] xs).map Prod.snd).getD i false =
        decide (u (xs.getD i d) ∈ (xs.take i).map u)) ∧
    ((kept_records u xs).map u).Nodup ∧
    (kept_records u xs).Sublist xs := by
  refine ⟨fun i h => ?_, (kept_from_spec u xs []).1, (kept_from_spec u xs []).2.2⟩
  have := duplicate_scan_flag u d xs [] i h
  simpa using this

/-- Witness for C8 on the sequence `[1, 2, 1]` with the identity function:
the third record is a repeat and the kept subsequence is `[1, 2]`. -/
theorem C8_witness :
    ((duplicate_scan (fun n : Nat => n) [] [1, 2, 1]).map Prod.snd).getD 2 false =
      decide ((fun n : Nat => n) (([1, 2, 1] : List Nat).getD 2 0) ∈
        (([1, 2, 1] : List Nat).take 2).map (fun n : Nat => n)) ∧
    ((kept_records (fun n : Nat => n) [1, 2, 1]).map (fun n : Nat => n)).Nodup ∧
    (kept_records (fun n : Nat => n) [1, 2, 1]).Sublist [1, 2, 1] :=
  ⟨(C8_deduplicator (fun n : Nat => n) [1, 2, 1] 0).1 2 (by decide),
   (C8_deduplicator (fun n : Nat => n) [1, 2, 1] 0).2.1,
   (C8_deduplicator (fun n : Nat => n) [1, 2, 1] 0).2.2⟩
